import Mathlib

/-!
Shallow embedding of the NanoEdit single-page image-editing client
(`src/App.tsx`): the session state controller (the `App` component's
React state and handlers) and the edit request gateway
(`editImageWithGemini` / `getClient`).  React `useState` cells become
fields of an explicit state record; each handler becomes a pure state
transformer; the asynchronous gateway call is modelled by passing the
awaited outcome as an argument; a throw inside the async gateway
function rejects the returned promise, which the controller's catch
receives, so rejection is modelled as a `failure` outcome.
-/

namespace NanoEdit

/-- Strip an exact expected head from a character list: `some` of the remainder
when the list begins with `head`, `none` otherwise.  Used to model anchored
literal matching on JS strings. -/
def dropHead : List Char → List Char → Option (List Char)
  | [], s => some s
  | _ :: _, [] => none
  | c :: cs, x :: xs => if x = c then dropHead cs xs else none

/-- JS `String.prototype.startsWith`, modelled on the character list. -/
def beginsWith (head s : List Char) : Bool :=
  (dropHead head s).isSome

/-- JS `String.prototype.trim`: remove leading and trailing whitespace.
Modelled on the character list with `Char.isWhitespace` (the prompts in this
program are ordinary text, for which this agrees with the JS whitespace set). -/
def jsTrim (s : String) : String :=
  ⟨((s.data.dropWhile Char.isWhitespace).reverse.dropWhile Char.isWhitespace).reverse⟩

/-- `AppStatus` from `src/unnamed/part_000` (types): IDLE, LOADING, SUCCESS, ERROR. -/
inductive AppStatus where
  | idle
  | loading
  | success
  | error
deriving DecidableEq

/-- The controller state: the six `useState` cells of `App` (src/App.tsx lines 17-22):
`status`, `originalImage`, `generatedImage`, `prompt`, `error`, `mimeType`. -/
structure AppState where
  status : AppStatus
  originalImage : Option String
  generatedImage : Option String
  prompt : String
  error : Option String
  mimeType : String
deriving DecidableEq

/-- The initial state of a freshly constructed `App` (src/App.tsx lines 17-22). -/
def initState : AppState :=
  { status := .idle
    originalImage := none
    generatedImage := none
    prompt := ""
    error := none
    mimeType := "image/jpeg" }

/-- An uploaded file: its declared media type (`file.type`) and the data URL
the `FileReader` produces for it (`reader.result`). -/
structure UploadedFile where
  declaredType : String
  dataUrl : String
deriving DecidableEq

/-- `handleFileUpload` (src/App.tsx lines 26-47).  `event.target.files?.[0]`
is the optional file; a missing file returns early.  A declared type that does
not start with `"image/"` sets the error text and returns with no other
change.  Otherwise the handler clears the prior result and error, records the
type, sets status IDLE, and (after the reader completes) stores the data URL
as the original image. -/
def handleFileUpload (file : Option UploadedFile) (s : AppState) : AppState :=
  match file with
  | none => s
  | some f =>
    if beginsWith "image/".data f.declaredType.data then
      { s with
        originalImage := some f.dataUrl
        generatedImage := none
        error := none
        mimeType := f.declaredType
        status := .idle }
    else
      { s with error := some "Please upload a valid image file." }

/-- The textarea `onChange` handler `setPrompt` (src/App.tsx line 173). -/
def setPromptText (t : String) (s : AppState) : AppState :=
  { s with prompt := t }

/-- The Clear button's `setGeneratedImage(null)` (src/App.tsx line 268). -/
def clearGenerated (s : AppState) : AppState :=
  { s with generatedImage := none }

/-- The outcome of one awaited gateway call: the resolved data-URL string or
the rejection's error message. -/
inductive EditOutcome where
  | image (payload : String)
  | failure (reason : String)
deriving DecidableEq

/-- The guard on line 50 of src/App.tsx: `if (!originalImage || !prompt.trim()) return;`.
`editImageWithGemini` is invoked exactly when this guard passes. -/
def submitGuard (s : AppState) : Bool :=
  s.originalImage.isSome && !(jsTrim s.prompt == "")

/-- The synchronous head of `handleGenerate` (src/App.tsx lines 49-53): when the
guard passes, `setStatus(LOADING)` and `setError(null)` run before the await;
otherwise the handler returns with no change. -/
def handleGenerateStart (s : AppState) : AppState :=
  if submitGuard s then { s with status := .loading, error := none } else s

/-- The continuation of `handleGenerate` after the await (src/App.tsx lines 56-62):
on resolution store the result and set SUCCESS; on rejection store
`err.message || "Something went wrong during generation."` and set ERROR. -/
def applyOutcome (s : AppState) (out : EditOutcome) : AppState :=
  match out with
  | .image r => { s with generatedImage := some r, status := .success }
  | .failure m =>
    { s with
      error := some (if m = "" then "Something went wrong during generation." else m)
      status := .error }

/-- One full run of `handleGenerate` (src/App.tsx lines 49-63) with the awaited
gateway outcome `out`: a no-op when the guard fails, otherwise the start
followed by the continuation. -/
def handleGenerate (s : AppState) (out : EditOutcome) : AppState :=
  if submitGuard s then applyOutcome (handleGenerateStart s) out else s

/-- `handleReset` (src/App.tsx lines 65-72): clears image, result, prompt and
error and returns to IDLE.  The `mimeType` cell is not touched. -/
def handleReset (s : AppState) : AppState :=
  { s with
    originalImage := none
    generatedImage := none
    prompt := ""
    status := .idle
    error := none }

/-- The session states reachable from the fresh state by the user-triggered
handlers: uploading a file, editing the prompt, the synchronous head of a
submission (the observable pending moment), a full submission with its awaited
outcome, reset, and clearing the generated image. -/
inductive Reachable : AppState → Prop where
  | init : Reachable initState
  | upload (f : Option UploadedFile) {s : AppState} :
      Reachable s → Reachable (handleFileUpload f s)
  | editPrompt (t : String) {s : AppState} :
      Reachable s → Reachable (setPromptText t s)
  | submitStart {s : AppState} :
      Reachable s → Reachable (handleGenerateStart s)
  | submitDone (out : EditOutcome) {s : AppState} :
      Reachable s → Reachable (handleGenerate s out)
  | reset {s : AppState} :
      Reachable s → Reachable (handleReset s)
  | clearResult {s : AppState} :
      Reachable s → Reachable (clearGenerated s)

/-- A concrete uploaded PNG used in the counterexample traces. -/
def demoFile : UploadedFile :=
  { declaredType := "image/png", dataUrl := "data:image/png;base64,QUFB" }

/-- State after uploading `demoFile` into the fresh session. -/
def s1 : AppState := handleFileUpload (some demoFile) initState

/-- State after typing the instruction. -/
def s2 : AppState := setPromptText "remove background" s1

/-- State after a successful submission. -/
def s3 : AppState := handleGenerate s2 (.image "data:image/png;base64,QkJC")

/-- State after a second submission from `s3` whose gateway call fails. -/
def s4 : AppState := handleGenerate s3 (.failure "boom")

/-- The pending moment of a second submission issued from the succeeded state `s3`. -/
def s3p : AppState := handleGenerateStart s3

/-! ## Edit request gateway (`geminiService`, src/App.tsx lines 293-366) -/

/-- JS truthiness of an optional string: present and non-empty.  Models the
tests `!apiKey`, `part.inlineData && part.inlineData.data` and `p.text`. -/
def isTruthyStr : Option String → Bool
  | some s => !(s == "")
  | none => false

/-- One element of the response's content sequence
(`response.candidates?.[0]?.content?.parts`): `inlineData` models
`part.inlineData?.data` (the truthiness test `part.inlineData &&
part.inlineData.data` holds exactly when this is `some` of a non-empty
string, and only the `data` field is ever read), `text` models `part.text`. -/
structure ResponsePart where
  inlineData : Option String
  text : Option String
deriving DecidableEq

/-- Whether `part.inlineData && part.inlineData.data` is truthy (line 344). -/
def partHasImage (p : ResponsePart) : Bool :=
  isTruthyStr p.inlineData

/-- The `for` loop of lines 343-348: the data of the first part whose inline
payload is truthy, if any. -/
def findImageData (parts : List ResponsePart) : Option String :=
  parts.findSome? fun p => if partHasImage p then p.inlineData else none

/-- `parts.find(p => p.text)` followed by reading `.text` (lines 352-354). -/
def findTextData (parts : List ResponsePart) : Option String :=
  (parts.find? fun p => isTruthyStr p.text).bind fun p => p.text

/-- Decoding the response (src/App.tsx lines 336-360).  The optional list
models the chain `response.candidates?.[0]?.content?.parts`; a `throw`
inside the `try` is recorded as a `failure` with the thrown message. -/
def parseResponse (partsOpt : Option (List ResponsePart)) : EditOutcome :=
  match partsOpt with
  | none => .failure "No content returned from Gemini"
  | some parts =>
    if parts.length = 0 then .failure "No content returned from Gemini"
    else
      match findImageData parts with
      | some d => .image ("data:image/png;base64," ++ d)
      | none =>
        match findTextData parts with
        | some t => .failure ("Model returned text instead of image: " ++ t)
        | none => .failure "Model did not return a valid image."

/-- The `catch` of lines 362-365 rethrows
`new Error(error.message || "Failed to process image with Gemini")`. -/
def rewrapMessage (m : String) : String :=
  if m = "" then "Failed to process image with Gemini" else m

/-- What the external call does when it is reached: either throw a
transport/auth error carrying a message (possibly empty), or resolve with
the optional content sequence `response.candidates?.[0]?.content?.parts`. -/
inductive TransportCall where
  | throws (message : String)
  | returns (partsOpt : Option (List ResponsePart))
deriving DecidableEq

/-- The gateway's environment: `process.env.API_KEY` and the behaviour of the
single `ai.models.generateContent` call. -/
structure GatewayEnv where
  apiKey : Option String
  transport : TransportCall
deriving DecidableEq

/-- `\w` of the strip regex on line 315: `[A-Za-z0-9_]`. -/
def isWordChar (c : Char) : Bool :=
  c.isAlphanum || c == '_'

/-- The characters of the literal `data:image/` head of the regex. -/
def dataUrlHead : List Char :=
  ['d', 'a', 't', 'a', ':', 'i', 'm', 'a', 'g', 'e', '/']

/-- The characters of the literal `;base64,` tail of the regex. -/
def base64Tag : List Char :=
  [';', 'b', 'a', 's', 'e', '6', '4', ',']

/-- Line 315: `base64Image.replace(/^data:image\/\w+;base64,/, "")`.  The
anchored regex matches the literal head, then a maximal non-empty run of word
characters (a shorter run cannot match, because the next regex token `;` is
not a word character), then the literal tail; on a match the remainder is
returned, otherwise the string is unchanged. -/
def cleanBase64 (s : List Char) : List Char :=
  match dropHead dataUrlHead s with
  | none => s
  | some rest =>
    match dropHead base64Tag (rest.dropWhile isWordChar) with
    | none => s
    | some tail => if rest.takeWhile isWordChar = [] then s else tail

/-- The request sent by `ai.models.generateContent` (lines 317-331): the
stripped payload as `inlineData.data`, the declared media type as
`inlineData.mimeType`, and the instruction as the `text` part. -/
structure TransmittedRequest where
  payloadData : List Char
  payloadMimeType : String
  promptText : String
deriving DecidableEq

/-- The contents of the single request issued for the given arguments. -/
def transmittedRequest (base64Image mimeType prompt : String) : TransmittedRequest :=
  { payloadData := cleanBase64 base64Image.data
    payloadMimeType := mimeType
    promptText := prompt }

/-- `editImageWithGemini` (src/App.tsx lines 304-366) as a function of its
environment and arguments.  `getClient` runs before the `try`, so a missing
or empty `API_KEY` rejects the promise with that error's message unwrapped;
errors thrown inside the `try` (transport errors and the parse throws) are
rewrapped by the `catch` with `error.message || "Failed to process image with
Gemini"`; a found image resolves as the fixed-format data URL. -/
def editImageWithGemini (env : GatewayEnv) (base64Image mimeType prompt : String) :
    EditOutcome :=
  if isTruthyStr env.apiKey then
    match env.transport with
    | .throws m => .failure (rewrapMessage m)
    | .returns partsOpt =>
      match parseResponse partsOpt with
      | .image r => .image r
      | .failure m => .failure (rewrapMessage m)
  else
    .failure "API_KEY environment variable is not set"

/-- Follows the spec's words, for comparison with `cleanBase64`: a payload
carries an embedded format header when it begins with a data-URL prefix of
the form `data:image/<subtype>;base64,` for some non-empty subtype (such as
`data:image/png;base64,`), and the string after the comma is the remainder. -/
def hasEmbeddedFormatHeader (s : List Char) : Prop :=
  ∃ sub rest, sub ≠ [] ∧ (∀ c ∈ sub, c ≠ ';' ∧ c ≠ ',') ∧
    s = dataUrlHead ++ sub ++ base64Tag ++ rest

/-! ## Helper lemmas -/

/-- The guard of line 50 in terms of the claims' vocabulary: a source image is
present and the instruction is non-blank after trimming. -/
theorem submitGuard_iff (s : AppState) :
    submitGuard s = true ↔ s.originalImage.isSome = true ∧ jsTrim s.prompt ≠ "" := by
  simp [submitGuard]

/-- C1: for every reachable session state, `resultImage` and `errorMessage` are
never both set, and every valid `submit()` ends with exactly one of them set.
REFUTED: the state reached by uploading an image, typing an instruction, a
successful submission and then a failed resubmission is reachable and carries
both a non-null `generatedImage` and a non-null `error`, because
`handleGenerate` never clears the previous result on failure. -/
theorem result_and_error_both_set_reachable :
    Reachable s4 ∧ s4.generatedImage.isSome = true ∧ s4.error.isSome = true := by
  refine ⟨?_, by decide, by decide⟩
  exact Reachable.submitDone _ (Reachable.submitDone _
    (Reachable.editPrompt _ (Reachable.upload _ Reachable.init)))

/-- C1 amended: every valid `submit()` ends either in SUCCESS with a non-null
result image and a cleared error message, or in ERROR with a non-null error
message; in the ERROR case, however, a result image from an earlier request may
remain set, so the two fields are not mutually exclusive. -/
theorem submit_terminal_phase_fields (s : AppState) (out : EditOutcome)
    (h : submitGuard s = true) :
    ((handleGenerate s out).status = .success ∧
      (handleGenerate s out).generatedImage.isSome = true ∧
      (handleGenerate s out).error = none) ∨
    ((handleGenerate s out).status = .error ∧
      (handleGenerate s out).error.isSome = true) := by
  cases out <;> simp [handleGenerate, handleGenerateStart, applyOutcome, h]

/-- C1 witness: the amended statement at the valid state `s2` with a failing
gateway call. -/
theorem submit_terminal_phase_fields_witness :
    ((handleGenerate s2 (.failure "boom")).status = .success ∧
      (handleGenerate s2 (.failure "boom")).generatedImage.isSome = true ∧
      (handleGenerate s2 (.failure "boom")).error = none) ∨
    ((handleGenerate s2 (.failure "boom")).status = .error ∧
      (handleGenerate s2 (.failure "boom")).error.isSome = true) :=
  submit_terminal_phase_fields s2 (.failure "boom") (by decide)

/-- C2: a fresh submission clears any prior `resultImage` before issuing the
gateway call, so Pending never coexists with a stale result.  REFUTED: issuing
a new submission from the succeeded state `s3` reaches the pending state `s3p`,
which is LOADING while still holding the previous generated image: lines 52-53
set only the status and the error, never `generatedImage`. -/
theorem pending_with_stale_result_reachable :
    Reachable s3p ∧ s3p.status = .loading ∧ s3p.generatedImage.isSome = true := by
  refine ⟨?_, by decide, by decide⟩
  exact Reachable.submitStart (Reachable.submitDone _
    (Reachable.editPrompt _ (Reachable.upload _ Reachable.init)))

/-- C2 amended: a valid fresh submission clears the prior `errorMessage` and
transitions to LOADING before the gateway call, but keeps the prior
`resultImage` (and every other field) unchanged; the prior result is discarded
only by a new upload or a reset, not by `submit()`. -/
theorem submit_start_clears_error_keeps_result (s : AppState)
    (h : submitGuard s = true) :
    handleGenerateStart s = { s with status := .loading, error := none } := by
  simp [handleGenerateStart, h]

/-- C2 witness: the amended statement at the succeeded state `s3`. -/
theorem submit_start_clears_error_keeps_result_witness :
    handleGenerateStart s3 = { s3 with status := .loading, error := none } :=
  submit_start_clears_error_keeps_result s3 (by decide)

/-- C3: rejecting a non-image upload leaves every session field unchanged and
does not store the error in `errorMessage`.  REFUTED: line 31 stores the text
"Please upload a valid image file." in the same `error` cell used for
generation failures, overwriting its previous value (none in the fresh state). -/
theorem invalid_upload_writes_error_message :
    initState.error = none ∧
    (handleFileUpload (some { declaredType := "text/plain", dataUrl := "blob:1" })
        initState).error = some "Please upload a valid image file." := by
  exact ⟨rfl, by decide⟩

/-- C3 amended: for a file whose declared type is not an image type, the upload
handler performs no phase transition and leaves `sourceImage`, `resultImage`,
`instruction` and the recorded media type unchanged, but it does store the
fixed message "Please upload a valid image file." in `errorMessage` — the same
field used for generation failures — rather than surfacing it out of band. -/
theorem invalid_upload_only_sets_error (s : AppState) (f : UploadedFile)
    (h : beginsWith "image/".data f.declaredType.data = false) :
    handleFileUpload (some f) s
      = { s with error := some "Please upload a valid image file." } := by
  simp [handleFileUpload, h]

/-- C3 witness: the amended statement for a `text/plain` upload into the fresh
session. -/
theorem invalid_upload_only_sets_error_witness :
    handleFileUpload (some { declaredType := "text/plain", dataUrl := "blob:1" }) initState
      = { initState with error := some "Please upload a valid image file." } :=
  invalid_upload_only_sets_error initState
    { declaredType := "text/plain", dataUrl := "blob:1" } (by decide)

/-- C4: `reset()` from any phase yields a session identical to a freshly
constructed one.  REFUTED: `handleReset` (lines 65-72) never touches the
`mimeType` cell, so resetting after a PNG upload leaves `mimeType` at
"image/png" while a fresh session starts at "image/jpeg". -/
theorem reset_keeps_mime_type :
    handleReset s1 ≠ initState ∧
    (handleReset s1).mimeType = "image/png" ∧
    initState.mimeType = "image/jpeg" := by
  exact ⟨by decide, by decide, rfl⟩

/-- C4 amended: `reset()` always succeeds from any phase, clears `sourceImage`,
`instruction`, `resultImage` and `errorMessage` and returns to IDLE; the result
agrees with a freshly constructed session on every field except the recorded
media type, which keeps its current value. -/
theorem reset_matches_fresh_except_mime (s : AppState) :
    handleReset s = { initState with mimeType := s.mimeType } :=
  rfl

/-- C5: `submit()` is rejected or ignored whenever the phase is already
Pending.  REFUTED: `handleGenerate` checks only `!originalImage ||
!prompt.trim()` (line 50); in the reachable LOADING state `s3p` the guard still
passes, so a re-entrant call issues a second gateway request and applies its
outcome. -/
theorem pending_submit_not_blocked :
    Reachable s3p ∧ s3p.status = .loading ∧ submitGuard s3p = true ∧
    (handleGenerate s3p (.failure "boom")).status = .error := by
  refine ⟨?_, by decide, by decide, by decide⟩
  exact Reachable.submitStart (Reachable.submitDone _
    (Reachable.editPrompt _ (Reachable.upload _ Reachable.init)))

/-- C5 amended: `submit()` is a no-op exactly on the line-50 guard — absent
source image or blank instruction; the guard does not consult the phase, is
unchanged by entering LOADING, and therefore does not block re-entry while a
submission is pending (the presentation layer alone disables the trigger
during loading). -/
theorem submit_guard_ignores_pending :
    (∀ (s : AppState) (out : EditOutcome), submitGuard s = false →
      handleGenerate s out = s) ∧
    (∀ s : AppState, submitGuard (handleGenerateStart s) = submitGuard s) ∧
    (∀ s : AppState,
      submitGuard s = true ↔ s.originalImage.isSome = true ∧ jsTrim s.prompt ≠ "") := by
  refine ⟨?_, ?_, fun s => submitGuard_iff s⟩
  · intro s out h
    simp [handleGenerate, h]
  · intro s
    unfold handleGenerateStart
    split <;> rfl

/-- C5 witness: the amended statement's no-op clause at the fresh session and
its guard clause at the pending state `s3p`. -/
theorem submit_guard_ignores_pending_witness :
    handleGenerate initState (.failure "x") = initState :=
  submit_guard_ignores_pending.1 initState (.failure "x") (by decide)

/-- C10: `submit()` never modifies the source image, the recorded media type or
the instruction text, whatever the guard and the gateway outcome, including at
the pending moment before the outcome arrives. -/
theorem submit_frame_fields (s : AppState) (out : EditOutcome) :
    (handleGenerate s out).originalImage = s.originalImage ∧
    (handleGenerate s out).mimeType = s.mimeType ∧
    (handleGenerate s out).prompt = s.prompt ∧
    (handleGenerateStart s).originalImage = s.originalImage ∧
    (handleGenerateStart s).mimeType = s.mimeType ∧
    (handleGenerateStart s).prompt = s.prompt := by
  by_cases h : submitGuard s = true <;> cases out <;>
    simp [handleGenerate, handleGenerateStart, applyOutcome, h]

/-! ## Gateway lemmas and claims -/

/-- A string whose first summand has non-empty data is non-empty. -/
theorem append_ne_empty (a b : String) (h : a.data ≠ []) : a ++ b ≠ "" := by
  intro hc
  apply h
  have hd : (a ++ b).data = "".data := congrArg String.data hc
  rw [String.data_append] at hd
  have h0 : "".data = ([] : List Char) := rfl
  rw [h0] at hd
  exact (List.append_eq_nil.mp hd).1

/-- The `catch` rewrap is the identity on a non-empty message. -/
theorem rewrapMessage_of_ne (m : String) (h : m ≠ "") : rewrapMessage m = m := by
  simp [rewrapMessage, h]

/-- If no element's inline payload is truthy, the search loop finds nothing. -/
theorem findImageData_eq_none (parts : List ResponsePart)
    (h : ∀ p ∈ parts, partHasImage p = false) :
    findImageData parts = none := by
  simp only [findImageData, List.findSome?_eq_none_iff]
  intro p hp
  simp [h p hp]

/-- An absent or empty content sequence decodes to the generic
"no content returned" failure. -/
theorem parseResponse_none_or_nil (partsOpt : Option (List ResponsePart))
    (h : partsOpt = none ∨ partsOpt = some []) :
    parseResponse partsOpt = .failure "No content returned from Gemini" := by
  rcases h with h | h <;> subst h <;> simp [parseResponse]

/-- A non-empty sequence with no truthy image payload but a truthy text element
decodes to the failure embedding that text. -/
theorem parseResponse_text (parts : List ResponsePart) (hne : parts ≠ [])
    (hni : findImageData parts = none) (t : String) (ht : findTextData parts = some t) :
    parseResponse (some parts) = .failure ("Model returned text instead of image: " ++ t) := by
  simp [parseResponse, hni, ht, List.length_eq_zero, hne]

/-- A non-empty sequence with neither a truthy image payload nor a truthy text
element decodes to the generic "no valid output" failure. -/
theorem parseResponse_no_output (parts : List ResponsePart) (hne : parts ≠ [])
    (hni : findImageData parts = none) (ht : findTextData parts = none) :
    parseResponse (some parts) = .failure "Model did not return a valid image." := by
  simp [parseResponse, hni, ht, List.length_eq_zero, hne]

/-- With the credential present, the gateway returns the decoded response, its
failure messages rewrapped by the `catch`. -/
theorem editImage_of_returns (env : GatewayEnv) (img mt pr : String)
    (partsOpt : Option (List ResponsePart))
    (hk : isTruthyStr env.apiKey = true) (ht : env.transport = .returns partsOpt) :
    editImageWithGemini env img mt pr =
      match parseResponse partsOpt with
      | .image r => .image r
      | .failure m => .failure (rewrapMessage m) := by
  simp [editImageWithGemini, hk, ht]

/-- C6: every transport-level or authentication error — including an absent
credential — surfaces as a failure outcome carrying the underlying message (or
the generic fallback when the message is empty), and such a failure is fatal
only to the operation: the controller transitions the session to the ERROR
phase with the message stored, it does not crash. -/
theorem gateway_error_normalization (env : GatewayEnv) (img mt pr : String) :
    (isTruthyStr env.apiKey = false →
      editImageWithGemini env img mt pr
        = .failure "API_KEY environment variable is not set") ∧
    (∀ m : String, isTruthyStr env.apiKey = true → env.transport = .throws m →
      editImageWithGemini env img mt pr
        = .failure (if m = "" then "Failed to process image with Gemini" else m)) ∧
    (∀ (s : AppState) (m : String), submitGuard s = true →
      (handleGenerate s (.failure m)).status = .error ∧
      (handleGenerate s (.failure m)).error.isSome = true) := by
  refine ⟨?_, ?_, ?_⟩
  · intro h
    simp [editImageWithGemini, h]
  · intro m hk ht
    simp [editImageWithGemini, hk, ht, rewrapMessage]
  · intro s m h
    simp [handleGenerate, handleGenerateStart, applyOutcome, h]

/-- C6 witness: the absent-credential clause at a concrete environment. -/
theorem gateway_error_normalization_witness :
    editImageWithGemini { apiKey := none, transport := .throws "" } "i" "m" "p"
      = .failure "API_KEY environment variable is not set" :=
  (gateway_error_normalization { apiKey := none, transport := .throws "" } "i" "m" "p").1 rfl

/-- C7: when the content sequence holds no truthy inline image payload, the
gateway fails: with the found text embedded verbatim when a truthy text
element exists, with the generic "no valid output" message when none does, and
with the generic "no content returned" message when the sequence is absent or
empty. -/
theorem gateway_no_image_failures (env : GatewayEnv) (img mt pr : String)
    (hk : isTruthyStr env.apiKey = true) :
    (∀ partsOpt, env.transport = .returns partsOpt →
      (partsOpt = none ∨ partsOpt = some []) →
      editImageWithGemini env img mt pr = .failure "No content returned from Gemini") ∧
    (∀ parts : List ResponsePart, env.transport = .returns (some parts) → parts ≠ [] →
      (∀ p ∈ parts, partHasImage p = false) →
      ((∀ t, findTextData parts = some t →
          editImageWithGemini env img mt pr
            = .failure ("Model returned text instead of image: " ++ t)) ∧
        (findTextData parts = none →
          editImageWithGemini env img mt pr
            = .failure "Model did not return a valid image."))) := by
  constructor
  · intro partsOpt ht hsh
    rw [editImage_of_returns env img mt pr partsOpt hk ht,
      parseResponse_none_or_nil partsOpt hsh]
    simp [rewrapMessage]
  · intro parts ht hne hni
    have hfi := findImageData_eq_none parts hni
    constructor
    · intro t htx
      rw [editImage_of_returns env img mt pr (some parts) hk ht,
        parseResponse_text parts hne hfi t htx]
      have := rewrapMessage_of_ne ("Model returned text instead of image: " ++ t)
        (append_ne_empty _ _ (by decide))
      simp [this]
    · intro htx
      rw [editImage_of_returns env img mt pr (some parts) hk ht,
        parseResponse_no_output parts hne hfi htx]
      simp [rewrapMessage]

/-- C7 witness: a response containing only a text element fails with that text
embedded verbatim. -/
theorem gateway_no_image_failures_witness :
    editImageWithGemini
        { apiKey := some "k",
          transport := .returns (some [{ inlineData := none, text := some "unsafe content" }]) }
        "img" "image/jpeg" "edit"
      = .failure ("Model returned text instead of image: " ++ "unsafe content") :=
  ((gateway_no_image_failures
      { apiKey := some "k",
        transport := .returns (some [{ inlineData := none, text := some "unsafe content" }]) }
      "img" "image/jpeg" "edit" (by decide)).2
    [{ inlineData := none, text := some "unsafe content" }] rfl (by decide) (by decide)).1
    "unsafe content" (by decide)

/-- The loop takes the first truthy inline payload, skipping any run of parts
without one. -/
theorem findImageData_first (pre post : List ResponsePart) (p : ResponsePart) (d : String)
    (hpre : ∀ q ∈ pre, partHasImage q = false)
    (hd : p.inlineData = some d) (hne : d ≠ "") :
    findImageData (pre ++ p :: post) = some d := by
  induction pre with
  | nil =>
    have hp : partHasImage p = true := by simp [partHasImage, isTruthyStr, hd, hne]
    simp [findImageData, List.findSome?_cons, hp, hd]
  | cons a as ih =>
    have ha : partHasImage a = false := hpre a (by simp)
    have ih' := ih fun q hq => hpre q (by simp [hq])
    simpa [findImageData, List.findSome?_cons, ha] using ih'

/-- C8: when some element of the content sequence carries a truthy inline image
payload, the gateway resolves with the first such payload — however many
non-image elements precede it — wrapped as a data URL with the fixed
`image/png` output format, independent of the input arguments. -/
theorem gateway_first_image_payload (env : GatewayEnv) (img mt pr : String)
    (pre post : List ResponsePart) (p : ResponsePart) (d : String)
    (hk : isTruthyStr env.apiKey = true)
    (ht : env.transport = .returns (some (pre ++ p :: post)))
    (hpre : ∀ q ∈ pre, partHasImage q = false)
    (hd : p.inlineData = some d) (hne : d ≠ "") :
    editImageWithGemini env img mt pr = .image ("data:image/png;base64," ++ d) := by
  have hfi := findImageData_first pre post p d hpre hd hne
  have hln : pre ++ p :: post ≠ [] := by simp
  rw [editImage_of_returns env img mt pr (some (pre ++ p :: post)) hk ht]
  simp [parseResponse, hfi, List.length_eq_zero, hln]

/-- C8 witness: a text element followed by an inline image element resolves
with the image element's data. -/
theorem gateway_first_image_payload_witness :
    editImageWithGemini
        { apiKey := some "k",
          transport := .returns (some
            [{ inlineData := none, text := some "here you go" },
             { inlineData := some "SU5H", text := none }]) }
        "img" "image/webp" "edit"
      = .image ("data:image/png;base64," ++ "SU5H") :=
  gateway_first_image_payload
    { apiKey := some "k",
      transport := .returns (some
        [{ inlineData := none, text := some "here you go" },
         { inlineData := some "SU5H", text := none }]) }
    "img" "image/webp" "edit"
    [{ inlineData := none, text := some "here you go" }] []
    { inlineData := some "SU5H", text := none } "SU5H"
    (by decide) rfl (by decide) rfl (by decide)

/-- Stripping an exact head off that very head followed by a remainder yields
the remainder. -/
theorem dropHead_append (pre s : List Char) : dropHead pre (pre ++ s) = some s := by
  induction pre with
  | nil => rfl
  | cons c cs ih => simp [dropHead, ih]

/-- A successful `dropHead` decomposes its input as the head plus the
remainder. -/
theorem dropHead_eq_some (pre : List Char) :
    ∀ s r : List Char, dropHead pre s = some r → s = pre ++ r := by
  induction pre with
  | nil =>
    intro s r h
    simp only [dropHead, Option.some.injEq] at h
    simp [h]
  | cons c cs ih =>
    intro s r h
    cases s with
    | nil => simp [dropHead] at h
    | cons x xs =>
      simp only [dropHead] at h
      by_cases hx : x = c
      · rw [if_pos hx] at h
        subst hx
        simp [ih xs r h]
      · rw [if_neg hx] at h
        exact absurd h (by simp)

/-- Splitting a run of word characters followed by the `;base64,` tail. -/
theorem takeWhile_word_append (w rest : List Char)
    (hw : ∀ c ∈ w, isWordChar c = true) :
    (w ++ (base64Tag ++ rest)).takeWhile isWordChar = w ∧
    (w ++ (base64Tag ++ rest)).dropWhile isWordChar = base64Tag ++ rest := by
  induction w with
  | nil =>
    have hsemi : ¬ isWordChar ';' = true := by decide
    simp only [List.nil_append, base64Tag, List.cons_append]
    rw [List.takeWhile_cons_of_neg hsemi, List.dropWhile_cons_of_neg hsemi]
    exact ⟨rfl, rfl⟩
  | cons a as ih =>
    have ha : isWordChar a = true := hw a (by simp)
    have ih' := ih fun c hc => hw c (by simp [hc])
    simp only [List.cons_append]
    rw [List.takeWhile_cons_of_pos ha, List.dropWhile_cons_of_pos ha, ih'.1]
    exact ⟨rfl, ih'.2⟩

/-- The strip succeeds exactly on headers whose subtype is a non-empty run of
word characters: the match removes head, subtype and tail. -/
theorem cleanBase64_strips (w rest : List Char) (hne : w ≠ [])
    (hw : ∀ c ∈ w, isWordChar c = true) :
    cleanBase64 (dataUrlHead ++ (w ++ (base64Tag ++ rest))) = rest := by
  have h1 := dropHead_append dataUrlHead (w ++ (base64Tag ++ rest))
  have h2 := takeWhile_word_append w rest hw
  have h3 := dropHead_append base64Tag rest
  simp only [cleanBase64, h1, h2.1, h2.2, h3]
  simp [hne]

/-- If the strip changes the payload at all, then the payload began with an
embedded format header in the spec's sense. -/
theorem cleanBase64_change_shape (s : List Char) (h : cleanBase64 s ≠ s) :
    hasEmbeddedFormatHeader s := by
  unfold cleanBase64 at h
  split at h
  · exact absurd rfl h
  · rename_i rest h1
    split at h
    · exact absurd rfl h
    · rename_i tail h2
      split at h
      · exact absurd rfl h
      · rename_i h3
        refine ⟨rest.takeWhile isWordChar, tail, h3, ?_, ?_⟩
        · intro c hc
          have hcw : isWordChar c = true := List.mem_takeWhile_imp hc
          refine ⟨fun hEq => ?_, fun hEq => ?_⟩ <;>
            (subst hEq; exact absurd hcw (by decide))
        · have hs := dropHead_eq_some dataUrlHead s rest h1
          have hdw := dropHead_eq_some base64Tag (rest.dropWhile isWordChar) tail h2
          rw [hs]
          conv_lhs => rw [← List.takeWhile_append_dropWhile isWordChar rest]
          rw [hdw]
          simp [List.append_assoc]

/-- C9: every payload with an embedded format header is transmitted as the
string after the comma.  REFUTED: the regex of line 315 accepts only `\w+`
subtypes, so the genuine image data URL `data:image/svg+xml;base64,AAAA` —
which the upload path produces for an accepted SVG file — is transmitted
whole, header included, rather than as `AAAA`. -/
theorem clean_base64_misses_svg_header :
    hasEmbeddedFormatHeader "data:image/svg+xml;base64,AAAA".data ∧
    cleanBase64 "data:image/svg+xml;base64,AAAA".data ≠ "AAAA".data ∧
    (transmittedRequest "data:image/svg+xml;base64,AAAA" "image/svg+xml" "edit").payloadData
      = "data:image/svg+xml;base64,AAAA".data := by
  refine ⟨⟨"svg+xml".data, "AAAA".data, by decide, by decide, by decide⟩, by decide, by decide⟩

/-- C9 amended: a payload whose header subtype is a non-empty run of word
characters (`[A-Za-z0-9_]+`) is transmitted as the string after the comma;
any payload without an embedded header passes through unchanged (as does one
whose header subtype contains other characters, per the counterexample); the
declared media type always travels separately, untouched. -/
theorem clean_base64_characterization :
    (∀ (w rest : List Char), w ≠ [] → (∀ c ∈ w, isWordChar c = true) →
      cleanBase64 (dataUrlHead ++ (w ++ (base64Tag ++ rest))) = rest) ∧
    (∀ s : List Char, ¬ hasEmbeddedFormatHeader s → cleanBase64 s = s) ∧
    (∀ img mt pr : String,
      (transmittedRequest img mt pr).payloadData = cleanBase64 img.data ∧
      (transmittedRequest img mt pr).payloadMimeType = mt) := by
  refine ⟨cleanBase64_strips, ?_, fun img mt pr => ⟨rfl, rfl⟩⟩
  intro s hnh
  by_contra hne
  exact hnh (cleanBase64_change_shape s hne)

/-- C9 witness: the amended strip clause at the PNG header of the scenario in
the spec. -/
theorem clean_base64_characterization_witness :
    cleanBase64 (dataUrlHead ++ ("png".data ++ (base64Tag ++ "QUFB".data))) = "QUFB".data :=
  clean_base64_characterization.1 "png".data "QUFB".data (by decide) (by decide)

end NanoEdit
